import Mathlib

/-!
Verification development for the linkedIn-ai-bot backend.

Shallow embedding of the job-matching pipeline:
the in-memory vector store (src/app/services/vector_store/client.py),
the LLM match and cover-letter calls (src/app/services/llm/client.py),
the automation matching engine (src/app/services/automation/client.py),
the LinkedIn token refresh (src/app/services/linkedin/client.py), and
the worker tasks (src/worker/tasks/linkedin_tasks.py, src/worker/main.py).

Python numeric values are modelled as rationals; Python dicts carrying
JSON-shaped data are modelled as association lists of string keys.
-/

/-- A Python value as it appears in the JSON-shaped dicts the services pass
around: None, strings, numbers (modelled as rationals), lists and dicts
(association lists preserving insertion order). -/
inductive PyVal where
  | pnone
  | str (s : String)
  | num (q : ℚ)
  | list (xs : List PyVal)
  | dict (kvs : List (String × PyVal))

/-- Python d.get(k, default) on a JSON object: the value at the first
occurrence of the key, or the default when the key is absent.  The services
only call .get on parsed JSON objects; a non-dict value yields the default. -/
def PyVal.get (v : PyVal) (k : String) (d : PyVal) : PyVal :=
  match v with
  | .dict kvs => (kvs.lookup k).getD d
  | _ => d

/-- Python d.get(k) with no default: the value, or None when absent. -/
def PyVal.getOpt (v : PyVal) (k : String) : Option PyVal :=
  match v with
  | .dict kvs => kvs.lookup k
  | _ => none

/-- Numeric read of a Python value, as used where the source divides a
score by 100: the rational payload of a number. -/
def PyVal.asNum (v : PyVal) (d : ℚ) : ℚ :=
  match v with
  | .num q => q
  | _ => d

/-- Python truthy test of metadata.get("type") == t for a metadata dict. -/
def PyVal.typeIs (md : PyVal) (t : String) : Bool :=
  match md.getOpt "type" with
  | some (.str s) => s == t
  | _ => false

/-- Python dict assignment d[k] = v on an insertion-ordered dict: replace in
place when the key is present, append otherwise. -/
def dictAssign {α : Type} (kvs : List (String × α)) (k : String) (v : α) :
    List (String × α) :=
  match kvs with
  | [] => [(k, v)]
  | (k0, v0) :: rest =>
      if k0 == k then (k0, v) :: rest else (k0, v0) :: dictAssign rest k v

/-- A row of the jobs table (src/app/models/job.py), restricted to the
columns the matching pipeline reads. -/
structure Job where
  id : String
  title : String
  company : String
  location : String
  description : String
deriving DecidableEq

/-- A row of the profiles table, restricted to the columns the vector store
reads when indexing a profile. -/
structure Profile where
  id : String
  full_name : String
  headline : String
deriving DecidableEq

/-- Models self.db.query(Job).filter(Job.id == job_id).first(). -/
def findJob (jobsDb : List Job) (jid : String) : Option Job :=
  jobsDb.find? (fun j => j.id == jid)

/-- Stable insertion of an element into a list sorted descending by key:
the element goes in front of the first entry whose key is not larger.
Together with sortDescBy this models the Python call
list.sort(key=..., reverse=True), which is a stable descending sort. -/
def insertDescBy {α : Type} (key : α → ℚ) (x : α) : List α → List α
  | [] => [x]
  | y :: ys => if key y ≤ key x then x :: y :: ys else y :: insertDescBy key x ys

/-- Stable descending sort by a rational key (see insertDescBy). -/
def sortDescBy {α : Type} (key : α → ℚ) : List α → List α
  | [] => []
  | x :: xs => insertDescBy key x (sortDescBy key xs)

/-! ## The in-memory vector store

VectorStoreService with VECTOR_STORE_PROVIDER = in_memory keeps two plain
dicts, self.vectors and self.metadata, both keyed by the entity id alone
(client.py lines 85-88); there is no per-namespace partition in this
provider.  Jobs and profiles are told apart only by the "type" field of the
stored metadata. -/

/-- The two dicts of the in-memory provider. -/
structure InMemoryStore where
  vectors : List (String × List ℚ)
  metadata : List (String × PyVal)

/-- The empty in-memory store, as initialised in the constructor. -/
def emptyStore : InMemoryStore := ⟨[], []⟩

/-- Models the storage step of VectorStoreService.index_job for the
in_memory provider (client.py lines 146-148): the embedding of the job text
is passed in (get_embedding is an external provider call), and the job is
written to the shared dicts under its id with metadata of type "job". -/
def index_job (store : InMemoryStore) (job : Job) (embedding : List ℚ) :
    InMemoryStore :=
  { vectors := dictAssign store.vectors job.id embedding,
    metadata := dictAssign store.metadata job.id
      (.dict [("id", .str job.id), ("title", .str job.title),
              ("company", .str job.company), ("location", .str job.location),
              ("type", .str "job")]) }

/-- Models the storage step of VectorStoreService.index_profile for the
in_memory provider (client.py lines 199-201): the profile is written to the
same shared dicts under its id with metadata of type "profile". -/
def index_profile (store : InMemoryStore) (profile : Profile)
    (embedding : List ℚ) : InMemoryStore :=
  { vectors := dictAssign store.vectors profile.id embedding,
    metadata := dictAssign store.metadata profile.id
      (.dict [("id", .str profile.id), ("name", .str profile.full_name),
              ("headline", .str profile.headline),
              ("type", .str "profile")]) }

/-- Sum of products of paired coordinates: models np.dot on vectors of the
configured dimension. -/
def dotList (v1 v2 : List ℚ) : ℚ := (List.zipWith (fun a b => a * b) v1 v2).sum

/-- Squared Euclidean norm, the argument numpy takes the square root of in
np.linalg.norm. -/
def normSq (v : List ℚ) : ℚ := dotList v v

/-- Models VectorStoreService._cosine_similarity (client.py lines 523-543):
dot(v1, v2) / (norm(v1) * norm(v2)).  numpy computes each norm as a
floating-point square root of the squared norm; that square root is passed
in as sqrtFn and constrained where a theorem needs it.  Lean division by
zero is zero where numpy returns NaN; for a NaN score the source filters
the candidate out (NaN fails the min_score test), so the claims touching
the zero-vector case are settled in a way that is false in both readings. -/
def cosine_similarity (sqrtFn : ℚ → ℚ) (v1 v2 : List ℚ) : ℚ :=
  dotList v1 v2 / (sqrtFn (normSq v1) * sqrtFn (normSq v2))

/-- One entry of the result list of VectorStoreService.search_jobs. -/
structure SearchEntry where
  id : String
  title : String
  company : String
  location : String
  score : ℚ
deriving DecidableEq

/-- The per-candidate step of the in_memory branch of
VectorStoreService.search_jobs (client.py lines 351-365): a stored vector
is kept when its metadata exists and marks it as a job, its cosine
similarity with the query reaches min_score, and its id is found in the
jobs table. -/
def search_jobs_entry (store : InMemoryStore) (jobsDb : List Job)
    (sqrtFn : ℚ → ℚ) (query_embedding : List ℚ) (min_score : ℚ)
    (p : String × List ℚ) : Option SearchEntry :=
  match store.metadata.lookup p.1 with
  | none => none
  | some md =>
      if md.typeIs "job" then
        if min_score ≤ cosine_similarity sqrtFn query_embedding p.2 then
          match findJob jobsDb p.1 with
          | some job =>
              some { id := job.id, title := job.title, company := job.company,
                     location := job.location,
                     score := cosine_similarity sqrtFn query_embedding p.2 }
          | none => none
        else none
      else none

/-- Models the in_memory branch of VectorStoreService.search_jobs
(client.py lines 351-372) from the point where the query embedding is in
hand: the kept candidates, sorted by score descending with the stable
Python sort, truncated to limit. -/
def search_jobs (store : InMemoryStore) (jobsDb : List Job)
    (sqrtFn : ℚ → ℚ) (query_embedding : List ℚ) (limit : Nat)
    (min_score : ℚ) : List SearchEntry :=
  (sortDescBy (fun e => e.score)
      (store.vectors.filterMap
        (search_jobs_entry store jobsDb sqrtFn query_embedding min_score))).take
    limit

/-- The vectors the in-memory store currently files under the jobs
namespace: exactly those a jobs query ranges over, namely the stored
vectors whose metadata currently marks them as jobs. -/
def jobsNamespace (store : InMemoryStore) : List (String × List ℚ) :=
  store.vectors.filter (fun p =>
    match store.metadata.lookup p.1 with
    | some md => md.typeIs "job"
    | none => false)

/-! ## The LLM call sites -/

/-- Models LLMService.match_job (src/app/services/llm/client.py lines
179-193) from the point where the raw LLM response text is in hand:
json.loads is passed in as json_loads (it is Python library code, with None
modelling a JSONDecodeError), the parsed JSON is returned as is, and on
parse failure the documented fallback dict is returned, with raw_response
carrying the response verbatim. -/
def match_job (json_loads : String → Option PyVal) (response : String) : PyVal :=
  match json_loads response with
  | some parsed => parsed
  | none =>
      .dict [("match_score", .num 50),
             ("matching_points", .list [.str "Could not parse matching points"]),
             ("missing_points", .list [.str "Could not parse missing points"]),
             ("recommendations", .list [.str "Could not parse recommendations"]),
             ("summary", .str "Could not generate a proper match analysis"),
             ("raw_response", .str response)]

/-- Models LLMService.generate_cover_letter (llm/client.py lines 261-276)
from the point where the raw LLM response text is in hand: the parsed JSON
is returned as is, and on parse failure the documented fallback dict is
returned, whose full_text field is the raw response verbatim. -/
def generate_cover_letter (json_loads : String → Option PyVal)
    (response : String) : PyVal :=
  match json_loads response with
  | some cover_letter => cover_letter
  | none =>
      .dict [("subject_line", .str "Application for [Job Title]"),
             ("salutation", .str "Dear Hiring Manager,"),
             ("introduction", .str "Could not generate introduction"),
             ("body", .str "Could not generate body"),
             ("closing", .str "Could not generate closing"),
             ("signature", .str "Sincerely,\n[Candidate Name]"),
             ("full_text", .str response)]

/-! ## The matching engine -/

/-- One entry of the matching_jobs list built by
AutomationService.find_matching_jobs (dict literal at client.py lines
252-264). -/
structure MatchEntry where
  id : String
  title : String
  company : String
  location : String
  score : ℚ
  vector_score : ℚ
  llm_score : ℚ
  matching_points : PyVal
  missing_points : PyVal
  recommendations : PyVal
  summary : PyVal

/-- The success payload of AutomationService.find_matching_jobs. -/
structure FindMatchesOutput where
  status : String
  count : Nat
  jobs : List MatchEntry
  message : String

/-- The per-candidate step of AutomationService.find_matching_jobs
(client.py lines 228-264): a (job id, vector score) pair from
find_similar_jobs is joined against the jobs table, the LLM match result is
fetched (llmResponse gives the raw LLM text per job id), and the scores are
combined: llm_score = match_result.get("match_score", 50) / 100 and
combined score = (vector_score + llm_score) / 2. -/
def find_matching_jobs_entry (jobsDb : List Job)
    (llmResponse : String → String) (json_loads : String → Option PyVal)
    (jm : String × ℚ) : Option MatchEntry :=
  match findJob jobsDb jm.1 with
  | none => none
  | some job =>
      let match_result := match_job json_loads (llmResponse job.id)
      let vector_score := jm.2
      let llm_score := (match_result.get "match_score" (.num 50)).asNum 0 / 100
      some { id := job.id, title := job.title, company := job.company,
             location := job.location,
             score := (vector_score + llm_score) / 2,
             vector_score := vector_score, llm_score := llm_score,
             matching_points := match_result.get "matching_points" (.list []),
             missing_points := match_result.get "missing_points" (.list []),
             recommendations := match_result.get "recommendations" (.list []),
             summary := match_result.get "summary" (.str "") }

/-- Models AutomationService.find_matching_jobs (automation/client.py lines
220-274) from the point where find_similar_jobs has produced its (job id,
vector score) list: the joined and scored entries, sorted by combined score
descending with the stable Python sort. -/
def find_matching_jobs (jobsDb : List Job) (similar_jobs : List (String × ℚ))
    (llmResponse : String → String) (json_loads : String → Option PyVal) :
    FindMatchesOutput :=
  let matching_jobs := similar_jobs.filterMap
    (find_matching_jobs_entry jobsDb llmResponse json_loads)
  { status := "success", count := matching_jobs.length,
    jobs := sortDescBy (fun e => e.score) matching_jobs,
    message := "Found " ++ toString matching_jobs.length ++ " matching jobs" }

/-! ## The LinkedIn credential refresh -/

/-- A row of the users table restricted to the LinkedIn credential columns
(src/app/models/user.py); the expiry is its POSIX timestamp. -/
structure UserRec where
  linkedin_access_token : Option String
  linkedin_refresh_token : Option String
  linkedin_token_expires_at : Option ℚ
deriving DecidableEq

/-- String read of an optional Python value: the token columns hold strings
or None. -/
def pyOptStr (v : Option PyVal) : Option String :=
  match v with
  | some (.str s) => some s
  | _ => none

/-- Numeric read of an optional Python value: the expiry column holds a
timestamp or None. -/
def pyOptNum (v : Option PyVal) : Option ℚ :=
  match v with
  | some (.num q) => some q
  | _ => none

/-- Result of one LinkedInService._ensure_valid_token call: the returned
token, the user row as left in the database, and how many times the
refresh endpoint was called. -/
structure EnsureTokenResult where
  token : Option String
  user : UserRec
  refreshCalls : Nat
deriving DecidableEq

/-- Models LinkedInService._ensure_valid_token (linkedin/client.py lines
89-129).  now is the wall clock; the refresh endpoint call
client.refresh_access_token is passed in as refreshOutcome, with None
modelling the call raising.  Note the new refresh token is read with
token_data.get("refresh_token"), which is None when the key is absent, and
the row is committed with that value. -/
def ensure_valid_token (user : UserRec) (now : ℚ)
    (refreshOutcome : Option PyVal) : EnsureTokenResult :=
  match user.linkedin_access_token with
  | none => ⟨none, user, 0⟩
  | some tok =>
      match user.linkedin_token_expires_at with
      | none => ⟨some tok, user, 0⟩
      | some exp =>
          if exp < now then
            match user.linkedin_refresh_token with
            | none => ⟨none, user, 0⟩
            | some _ =>
                match refreshOutcome with
                | none => ⟨none, user, 1⟩
                | some token_data =>
                    let user2 : UserRec :=
                      { linkedin_access_token :=
                          pyOptStr (token_data.getOpt "access_token"),
                        linkedin_refresh_token :=
                          pyOptStr (token_data.getOpt "refresh_token"),
                        linkedin_token_expires_at :=
                          pyOptNum (token_data.getOpt "expires_at") }
                    ⟨user2.linkedin_access_token, user2, 1⟩
          else ⟨some tok, user, 0⟩

/-- Models the token update in the worker task linkedin.sync_profile
(src/worker/tasks/linkedin_tasks.py lines 60-67): unlike the service path,
the refresh token is read with
token_data.get("refresh_token", user.linkedin_refresh_token), keeping the
stored value when the response lacks the key, and expires_at is read with
default 0. -/
def sync_profile_token_update (user : UserRec) (token_data : PyVal) : UserRec :=
  { linkedin_access_token := pyOptStr (token_data.getOpt "access_token"),
    linkedin_refresh_token :=
      pyOptStr (some (token_data.get "refresh_token"
        (match user.linkedin_refresh_token with
         | some rt => .str rt
         | none => .pnone))),
    linkedin_token_expires_at :=
      some ((token_data.get "expires_at" (.num 0)).asNum 0) }

/-! ## Concurrent refresh

The source has no per-user lock of any kind around the token refresh; two
workers serving the same user run _ensure_valid_token against the same
user row independently.  The interleaving model below gives each call two
atomic steps: the expiry check (a read of the shared row), then the
refresh-endpoint call together with the write-back and commit.  Coarser
atomicity only removes interleavings, so an interleaving exhibited here is
also an interleaving of the finer-grained source. -/

/-- Program counter of one in-flight _ensure_valid_token call. -/
inductive RefreshPC where
  | checkExpiry
  | refreshAndCommit
  | finished
deriving DecidableEq

/-- One in-flight _ensure_valid_token call: its program counter and, once
finished, its return value. -/
structure RefreshThread where
  pc : RefreshPC
  ret : Option String
deriving DecidableEq

/-- The shared state: the user row, the number of refresh-endpoint calls
made so far, and the in-flight calls. -/
structure RefreshWorld where
  user : UserRec
  refreshCalls : Nat
  threads : List RefreshThread
deriving DecidableEq

/-- One atomic step of the in-flight call at index i (no step when the
index is absent or the call is finished).  token_data is the refresh
endpoint response, identical for both callers. -/
def refreshWorldStep (now : ℚ) (token_data : PyVal) (w : RefreshWorld)
    (i : Nat) : RefreshWorld :=
  match w.threads.get? i with
  | none => w
  | some t =>
      match t.pc with
      | .finished => w
      | .checkExpiry =>
          let t2 : RefreshThread :=
            match w.user.linkedin_access_token with
            | none => ⟨.finished, none⟩
            | some tok =>
                match w.user.linkedin_token_expires_at with
                | none => ⟨.finished, some tok⟩
                | some exp =>
                    if exp < now then
                      match w.user.linkedin_refresh_token with
                      | none => ⟨.finished, none⟩
                      | some _ => ⟨.refreshAndCommit, none⟩
                    else ⟨.finished, some tok⟩
          { w with threads := w.threads.set i t2 }
      | .refreshAndCommit =>
          let user2 : UserRec :=
            { linkedin_access_token :=
                pyOptStr (token_data.getOpt "access_token"),
              linkedin_refresh_token :=
                pyOptStr (token_data.getOpt "refresh_token"),
              linkedin_token_expires_at :=
                pyOptNum (token_data.getOpt "expires_at") }
          { user := user2, refreshCalls := w.refreshCalls + 1,
            threads := w.threads.set i ⟨.finished, user2.linkedin_access_token⟩ }

/-- Runs a schedule, a list of thread indices naming which in-flight call
steps next. -/
def runRefreshSchedule (now : ℚ) (token_data : PyVal) (w : RefreshWorld) :
    List Nat → RefreshWorld
  | [] => w
  | i :: rest => runRefreshSchedule now token_data (refreshWorldStep now token_data w i) rest

/-! ## The task layer -/

/-- Outcome of executing the body of a Python function once: it returns a
value or raises an exception carrying a message. -/
inductive PyOutcome where
  | returns (v : PyVal)
  | raises (msg : String)

/-- Models the Celery task linkedin.sync_profile
(src/worker/tasks/linkedin_tasks.py lines 23-125) at the boundary the
retry claim needs: the whole body is wrapped in try/except Exception, so
whatever the inner work raises, the exception never escapes the task; it
is converted to a returned error dict carrying the exception text. -/
def sync_profile_body (user_id : String) (inner : PyOutcome) : PyOutcome :=
  match inner with
  | .returns v => .returns v
  | .raises msg =>
      .returns (.dict [("status", .str "error"),
                       ("user_id", .str user_id),
                       ("message",
                        .str ("Error syncing LinkedIn profile: " ++ msg))])

/-- Terminal Celery task states. -/
inductive CeleryState where
  | success
  | failure
deriving DecidableEq

/-- One task delivery as Celery records it: terminal state, number of
execution attempts, and the returned result when the body returned. -/
structure CeleryRun where
  finalState : CeleryState
  attempts : Nat
  result : Option PyVal

/-- Models Celery executing one task under the configuration in
src/worker/main.py lines 17-28: the configuration sets serialization and
acking options only, with no autoretry_for and no retry policy, and no
handler in src/worker/tasks ever calls self.retry or raises Retry; so a
task body is attempted exactly once, a body that returns ends in SUCCESS
with its return value, and a body that raises ends in FAILURE. -/
def runCeleryTask (body : PyOutcome) : CeleryRun :=
  match body with
  | .returns v => ⟨.success, 1, some v⟩
  | .raises _ => ⟨.failure, 1, none⟩

/-! ## Helper lemmas on the sort and the dicts -/

theorem mem_insertDescBy {α : Type} (key : α → ℚ) (x y : α) (l : List α) :
    y ∈ insertDescBy key x l ↔ y = x ∨ y ∈ l := by
  induction l with
  | nil => simp [insertDescBy]
  | cons a l ih =>
      simp only [insertDescBy]
      by_cases h : key a ≤ key x
      · simp [h, List.mem_cons]
      · simp only [h, if_false, List.mem_cons, ih]
        tauto

theorem mem_sortDescBy {α : Type} (key : α → ℚ) (y : α) (l : List α) :
    y ∈ sortDescBy key l ↔ y ∈ l := by
  induction l with
  | nil => simp [sortDescBy]
  | cons a l ih => simp [sortDescBy, mem_insertDescBy, ih]

theorem pairwise_insertDescBy {α : Type} (key : α → ℚ) (x : α) (l : List α)
    (h : l.Pairwise (fun a b => key b ≤ key a)) :
    (insertDescBy key x l).Pairwise (fun a b => key b ≤ key a) := by
  induction l with
  | nil => simp [insertDescBy]
  | cons a l ih =>
      rcases List.pairwise_cons.1 h with ⟨ha, hl⟩
      simp only [insertDescBy]
      by_cases hle : key a ≤ key x
      · rw [if_pos hle]
        refine List.pairwise_cons.2 ⟨fun b hb => ?_, h⟩
        rcases List.mem_cons.1 hb with rfl | hbl
        · exact hle
        · exact le_trans (ha b hbl) hle
      · rw [if_neg hle]
        refine List.pairwise_cons.2 ⟨fun b hb => ?_, ih hl⟩
        rcases (mem_insertDescBy key x b l).1 hb with rfl | hbl
        · exact le_of_not_le hle
        · exact ha b hbl

theorem pairwise_sortDescBy {α : Type} (key : α → ℚ) (l : List α) :
    (sortDescBy key l).Pairwise (fun a b => key b ≤ key a) := by
  induction l with
  | nil => simp [sortDescBy]
  | cons a l ih => exact pairwise_insertDescBy key a _ ih

theorem head_sortDescBy_max {α : Type} (key : α → ℚ) (x : α) (l : List α)
    (hx : x ∈ l) (hmax : ∀ y ∈ l, y ≠ x → key y < key x) :
    (sortDescBy key l).head? = some x := by
  induction l with
  | nil => cases hx
  | cons a l ih =>
      rcases List.mem_cons.1 hx with rfl | hxl
      · simp only [sortDescBy]
        cases hs : sortDescBy key l with
        | nil => simp [insertDescBy]
        | cons b bs =>
            have hb : b ∈ l := (mem_sortDescBy key b l).1 (hs ▸ List.mem_cons_self b bs)
            have hble : key b ≤ key x := by
              by_cases hbx : b = x
              · exact le_of_eq (by rw [hbx])
              · exact le_of_lt (hmax b (List.mem_cons_of_mem _ hb) hbx)
            simp [insertDescBy, hble]
      · have hhead := ih hxl (fun y hy hyx => hmax y (List.mem_cons_of_mem _ hy) hyx)
        simp only [sortDescBy]
        cases hs : sortDescBy key l with
        | nil => rw [hs] at hhead; cases hhead
        | cons b bs =>
            rw [hs] at hhead
            have hbx : b = x := by simpa using hhead
            subst hbx
            simp only [insertDescBy]
            by_cases hax : a = b
            · subst hax; rw [if_pos le_rfl]; rfl
            · have hlt : key a < key b := hmax a (List.mem_cons_self a l) hax
              rw [if_neg (not_le.2 hlt)]; rfl

theorem head_take {α : Type} (l : List α) (n : Nat) (hn : 1 ≤ n) :
    (l.take n).head? = l.head? := by
  cases l with
  | nil => simp
  | cons a l =>
      cases n with
      | zero => exact absurd hn (by decide)
      | succ n => simp [List.take]

/-- Keys of a Python dict are distinct: the invariant every state reachable
through dict assignment satisfies, assumed where a theorem quantifies over
a store. -/
def keysNodup {α : Type} (l : List (String × α)) : Prop :=
  (l.map Prod.fst).Nodup

theorem lookup_dictAssign {α : Type} (l : List (String × α)) (k : String)
    (v : α) : (dictAssign l k v).lookup k = some v := by
  induction l with
  | nil => simp [dictAssign, List.lookup]
  | cons p l ih =>
      obtain ⟨k0, v0⟩ := p
      simp only [dictAssign]
      by_cases h : k0 = k
      · subst h; simp [List.lookup]
      · have hb : (k0 == k) = false := beq_eq_false_iff_ne.2 h
        have hb2 : (k == k0) = false := beq_eq_false_iff_ne.2 (Ne.symm h)
        simp [hb, hb2, List.lookup, ih]

theorem mem_dictAssign_self {α : Type} (l : List (String × α)) (k : String)
    (v : α) : (k, v) ∈ dictAssign l k v := by
  induction l with
  | nil => simp [dictAssign]
  | cons p l ih =>
      obtain ⟨k0, v0⟩ := p
      simp only [dictAssign]
      by_cases h : k0 = k
      · subst h; simp
      · have hb : (k0 == k) = false := beq_eq_false_iff_ne.2 h
        rw [if_neg (by simp [hb])]
        exact List.mem_cons_of_mem _ ih

theorem mem_dictAssign_elim {α : Type} {l : List (String × α)} {k : String}
    {v : α} (hnd : keysNodup l) {p : String × α}
    (hp : p ∈ dictAssign l k v) : p = (k, v) ∨ (p ∈ l ∧ p.1 ≠ k) := by
  induction l with
  | nil =>
      simp only [dictAssign, List.mem_singleton] at hp
      exact Or.inl hp
  | cons q l ih =>
      obtain ⟨k0, v0⟩ := q
      rw [keysNodup, List.map_cons, List.nodup_cons] at hnd
      obtain ⟨hk0, hnd2⟩ := hnd
      simp only [dictAssign] at hp
      by_cases h : k0 = k
      · subst h
        rw [if_pos (by simp)] at hp
        rcases List.mem_cons.1 hp with rfl | hpl
        · exact Or.inl rfl
        · refine Or.inr ⟨List.mem_cons_of_mem _ hpl, fun he => hk0 ?_⟩
          rw [← he]
          exact List.mem_map.2 ⟨p, hpl, rfl⟩
      · rw [if_neg (by simpa using h)] at hp
        rcases List.mem_cons.1 hp with rfl | hpd
        · exact Or.inr ⟨List.mem_cons_self _ _, by simpa using h⟩
        · rcases ih hnd2 hpd with h1 | ⟨h2, h3⟩
          · exact Or.inl h1
          · exact Or.inr ⟨List.mem_cons_of_mem _ h2, h3⟩

theorem findJob_id {jobsDb : List Job} {k : String} {j : Job}
    (h : findJob jobsDb k = some j) : j.id = k := by
  rw [findJob] at h
  have h2 := List.find?_some h
  simpa using h2

/-! ## Claim C1 -/

/-- Claim C1: every match entry produced by find_matching_jobs has combined
score exactly (vector_score + llm_score) / 2, and whenever vector_score and
llm_score both lie in [0, 1] the combined score lies in [0, 1]. -/
theorem find_matching_jobs_combined_score (jobsDb : List Job)
    (similar_jobs : List (String × ℚ)) (llmResponse : String → String)
    (json_loads : String → Option PyVal) (e : MatchEntry)
    (he : e ∈ (find_matching_jobs jobsDb similar_jobs llmResponse json_loads).jobs) :
    e.score = (e.vector_score + e.llm_score) / 2 ∧
    (0 ≤ e.vector_score → e.vector_score ≤ 1 → 0 ≤ e.llm_score →
      e.llm_score ≤ 1 → 0 ≤ e.score ∧ e.score ≤ 1) := by
  have hmem : e ∈ similar_jobs.filterMap
      (find_matching_jobs_entry jobsDb llmResponse json_loads) := by
    simpa [find_matching_jobs, mem_sortDescBy] using he
  rcases List.mem_filterMap.1 hmem with ⟨jm, _, hsome⟩
  cases hfind : findJob jobsDb jm.1 with
  | none => rw [find_matching_jobs_entry, hfind] at hsome; cases hsome
  | some job =>
      rw [find_matching_jobs_entry, hfind] at hsome
      simp only [Option.some.injEq] at hsome
      subst hsome
      refine ⟨rfl, fun h1 h2 h3 h4 => ?_⟩
      simp only at h1 h2 h3 h4 ⊢
      constructor <;> [positivity; skip]
      · linarith

/-- A concrete jobs table row for the C1 witness run. -/
def wC1Job : Job := ⟨"j1", "T", "C", "L", "D"⟩

/-- The match entry the C1 witness run produces: the LLM response is
malformed, so llm_score falls back to 50 / 100. -/
def wC1Entry : MatchEntry :=
  { id := "j1", title := "T", company := "C", location := "L",
    score := (1/2 + 50/100) / 2, vector_score := 1/2, llm_score := 50/100,
    matching_points := .list [.str "Could not parse matching points"],
    missing_points := .list [.str "Could not parse missing points"],
    recommendations := .list [.str "Could not parse recommendations"],
    summary := .str "Could not generate a proper match analysis" }

/-- Witness for find_matching_jobs_combined_score at a concrete run. -/
theorem find_matching_jobs_combined_score_witness :
    wC1Entry.score = (wC1Entry.vector_score + wC1Entry.llm_score) / 2 ∧
    0 ≤ wC1Entry.score ∧ wC1Entry.score ≤ 1 := by
  have h := find_matching_jobs_combined_score [wC1Job] [("j1", 1/2)]
    (fun _ => "oops") (fun _ => none) wC1Entry
    (by show wC1Entry ∈ [wC1Entry]; exact List.mem_singleton.mpr rfl)
  refine ⟨h.1, ?_⟩
  have hb := h.2 (by norm_num [wC1Entry]) (by norm_num [wC1Entry])
    (by norm_num [wC1Entry]) (by norm_num [wC1Entry])
  exact hb

/-! ## Claim C2 -/

theorem search_jobs_entry_spec {store : InMemoryStore} {jobsDb : List Job}
    {sqrtFn : ℚ → ℚ} {q : List ℚ} {ms : ℚ} {p : String × List ℚ}
    {y : SearchEntry}
    (h : search_jobs_entry store jobsDb sqrtFn q ms p = some y) :
    y.score = cosine_similarity sqrtFn q p.2 ∧ ms ≤ y.score ∧ y.id = p.1 := by
  rw [search_jobs_entry] at h
  cases hmd : store.metadata.lookup p.1 with
  | none => rw [hmd] at h; cases h
  | some md =>
      rw [hmd] at h
      simp only [] at h
      by_cases ht : md.typeIs "job" = true
      · rw [if_pos ht] at h
        by_cases hs : ms ≤ cosine_similarity sqrtFn q p.2
        · rw [if_pos hs] at h
          cases hf : findJob jobsDb p.1 with
          | none => rw [hf] at h; cases h
          | some job =>
              rw [hf] at h
              simp only [] at h
              simp only [Option.some.injEq] at h
              subst h
              exact ⟨rfl, hs, findJob_id hf⟩
        · rw [if_neg hs] at h; cases h
      · rw [if_neg ht] at h; cases h

/-- The job row the C2 runs are joined against. -/
def wC2Job : Job := ⟨"x1", "T", "C", "L", "D"⟩

/-- Counterexample to claim C2 as stated: with the zero vector, the query
right after the upsert does not return the id with score within 1e-6 of
1.0.  In this exact-arithmetic model the sole result carries score 0; in
numpy arithmetic the similarity is NaN and the result list is empty; the
claim fails either way. -/
theorem search_after_upsert_zero_vector :
    (search_jobs (index_job emptyStore wC2Job [0]) [wC2Job] (fun _ => 0)
        [0] 1 0).map (fun e => e.score) = [0] ∧
    ¬ (|(0 : ℚ) - 1| ≤ 1 / 1000000) := by
  constructor
  · simp [search_jobs, search_jobs_entry, index_job, emptyStore, dictAssign,
      PyVal.typeIs, PyVal.getOpt, List.lookup, findJob, List.find?, wC2Job,
      cosine_similarity, dotList, normSq, sortDescBy, insertDescBy]
  · rw [abs_of_nonpos (by norm_num)]
    norm_num

/-- Claim C2 (amended): in a store with well-formed dicts, upserting a
nonzero vector v under a job id and querying with v itself returns that id
first with score exactly 1 (so certainly within tolerance 1e-6), provided
the floating-point square root is exact at the squared norm of v, the id
is present in the jobs table (search_jobs drops hits missing from the
table), top_k is at least 1, min_score is 0, and every other stored vector
has cosine similarity with v strictly below 1. -/
theorem search_after_upsert_self_similarity
    (store : InMemoryStore) (job : Job) (v : List ℚ) (sqrtFn : ℚ → ℚ)
    (jobsDb : List Job) (limit : Nat)
    (hnd : keysNodup store.vectors)
    (hnz : normSq v ≠ 0)
    (hsqrt : sqrtFn (normSq v) * sqrtFn (normSq v) = normSq v)
    (hdb : findJob jobsDb job.id = some job)
    (hlim : 1 ≤ limit)
    (hothers : ∀ p ∈ (index_job store job v).vectors, p.1 ≠ job.id →
      cosine_similarity sqrtFn v p.2 < 1) :
    (search_jobs (index_job store job v) jobsDb sqrtFn v limit 0).head? =
      some ⟨job.id, job.title, job.company, job.location, 1⟩ := by
  have hsim : cosine_similarity sqrtFn v v = 1 := by
    rw [cosine_similarity, hsqrt]
    exact div_self hnz
  have hentry : search_jobs_entry (index_job store job v) jobsDb sqrtFn v 0
      (job.id, v) =
      some ⟨job.id, job.title, job.company, job.location, 1⟩ := by
    rw [search_jobs_entry]
    show (match (dictAssign store.metadata job.id _).lookup job.id with
      | none => none
      | some md => _) = _
    rw [lookup_dictAssign]
    simp only []
    have htype : (PyVal.dict [("id", .str job.id), ("title", .str job.title),
        ("company", .str job.company), ("location", .str job.location),
        ("type", .str "job")]).typeIs "job" = true := by
      simp [PyVal.typeIs, PyVal.getOpt, List.lookup]
    rw [if_pos htype, hsim, if_pos (by norm_num : (0:ℚ) ≤ 1)]
    rw [hdb]
  have hmem : (⟨job.id, job.title, job.company, job.location, 1⟩ : SearchEntry) ∈
      (index_job store job v).vectors.filterMap
        (search_jobs_entry (index_job store job v) jobsDb sqrtFn v 0) :=
    List.mem_filterMap.2 ⟨(job.id, v), mem_dictAssign_self _ _ _, hentry⟩
  have hmax : ∀ y ∈ (index_job store job v).vectors.filterMap
      (search_jobs_entry (index_job store job v) jobsDb sqrtFn v 0),
      y ≠ (⟨job.id, job.title, job.company, job.location, 1⟩ : SearchEntry) →
      y.score < 1 := by
    intro y hy hne
    rcases List.mem_filterMap.1 hy with ⟨p, hp, hyp⟩
    rcases mem_dictAssign_elim hnd hp with rfl | ⟨hpl, hpne⟩
    · rw [hyp] at hentry
      exact absurd (Option.some.inj hentry) hne
    · obtain ⟨hscore, _, _⟩ := search_jobs_entry_spec hyp
      rw [hscore]
      exact hothers p hp hpne
  rw [search_jobs, head_take _ _ hlim]
  exact head_sortDescBy_max (fun e => e.score) _ _ hmem
    (fun y hy hne => hmax y hy hne)

/-- Witness for search_after_upsert_self_similarity at a concrete run. -/
theorem search_after_upsert_self_similarity_witness :
    (search_jobs (index_job emptyStore wC2Job [1]) [wC2Job] (fun _ => 1)
        [1] 1 0).head? = some ⟨"x1", "T", "C", "L", 1⟩ := by
  have h := search_after_upsert_self_similarity emptyStore wC2Job [1]
    (fun _ => 1) [wC2Job] 1
    (by simp [emptyStore, keysNodup])
    (by norm_num [normSq, dotList])
    (by norm_num [normSq, dotList])
    (by rfl)
    (by norm_num)
    (by intro p hp hne
        exfalso
        apply hne
        have : p = ("x1", [(1:ℚ)]) := by
          simpa [index_job, emptyStore, dictAssign, wC2Job] using hp
        rw [this]
        rfl)
  exact h

/-! ## Claim C7 -/

/-- Claim C7 (amended): every search_jobs result list is sorted descending
by score and contains only candidates whose similarity reaches min_score,
and every find_matching_jobs result list is sorted descending by combined
score; ties keep the stable-sort order of the underlying store or candidate
list rather than being broken by ascending id, and the output is a single
fixed value for fixed inputs, hence deterministic. -/
theorem search_results_sorted (store : InMemoryStore) (jobsDb : List Job)
    (sqrtFn : ℚ → ℚ) (q : List ℚ) (limit : Nat) (ms : ℚ)
    (similar_jobs : List (String × ℚ)) (llmResponse : String → String)
    (json_loads : String → Option PyVal) (e : SearchEntry)
    (he : e ∈ search_jobs store jobsDb sqrtFn q limit ms) :
    ms ≤ e.score ∧
    (search_jobs store jobsDb sqrtFn q limit ms).Pairwise
      (fun a b => b.score ≤ a.score) ∧
    (find_matching_jobs jobsDb similar_jobs llmResponse json_loads).jobs.Pairwise
      (fun a b => b.score ≤ a.score) := by
  refine ⟨?_, ?_, ?_⟩
  · rw [search_jobs] at he
    have he2 := (mem_sortDescBy _ e _).1 (List.mem_of_mem_take he)
    rcases List.mem_filterMap.1 he2 with ⟨p, _, hy⟩
    obtain ⟨hs1, hs2, _⟩ := search_jobs_entry_spec hy
    exact hs2
  · rw [search_jobs]
    exact List.Pairwise.sublist (List.take_sublist _ _)
      (pairwise_sortDescBy _ _)
  · rw [find_matching_jobs]
    exact pairwise_sortDescBy _ _

/-- Jobs for the C7 runs: two rows whose vectors tie on similarity. -/
def wC7JobA : Job := ⟨"a1", "TA", "CA", "LA", "DA"⟩

/-- Second job row for the C7 runs, indexed before wC7JobA. -/
def wC7JobB : Job := ⟨"b1", "TB", "CB", "LB", "DB"⟩

/-- Counterexample to claim C7 as stated: two stored job vectors tie with
score 1 on the query, and they come back in store insertion order (b1
before a1), not in ascending id order (which would put a1 first). -/
theorem search_jobs_tie_not_id_order :
    (search_jobs (index_job (index_job emptyStore wC7JobB [1]) wC7JobA [1])
        [wC7JobA, wC7JobB] (fun _ => 1) [1] 10 0).map (fun e => e.id) =
      ["b1", "a1"] ∧
    (search_jobs (index_job (index_job emptyStore wC7JobB [1]) wC7JobA [1])
        [wC7JobA, wC7JobB] (fun _ => 1) [1] 10 0).map (fun e => e.score) =
      [1, 1] := by
  constructor <;>
    simp [search_jobs, search_jobs_entry, index_job, emptyStore, dictAssign,
      PyVal.typeIs, PyVal.getOpt, List.lookup, findJob, List.find?,
      wC7JobA, wC7JobB, cosine_similarity, dotList, normSq,
      sortDescBy, insertDescBy]

/-- The search entry the C7 witness run produces. -/
def wC7Entry : SearchEntry := ⟨"x1", "T", "C", "L", 1⟩

/-- Witness for search_results_sorted at a concrete run. -/
theorem search_results_sorted_witness :
    (0 : ℚ) ≤ wC7Entry.score ∧
    (search_jobs (index_job emptyStore wC2Job [1]) [wC2Job] (fun _ => 1)
        [1] 1 0).Pairwise (fun a b => b.score ≤ a.score) ∧
    (find_matching_jobs [wC2Job] [] (fun _ => "") (fun _ => none)).jobs.Pairwise
      (fun a b => b.score ≤ a.score) := by
  have hlist : search_jobs (index_job emptyStore wC2Job [1]) [wC2Job]
      (fun _ => 1) [1] 1 0 = [wC7Entry] := by
    simp [search_jobs, search_jobs_entry, index_job, emptyStore, dictAssign,
      PyVal.typeIs, PyVal.getOpt, List.lookup, findJob, List.find?, wC2Job,
      cosine_similarity, dotList, normSq, sortDescBy, insertDescBy, wC7Entry]
  exact search_results_sorted (index_job emptyStore wC2Job [1]) [wC2Job]
    (fun _ => 1) [1] 1 0 [] (fun _ => "") (fun _ => none) wC7Entry
    (by rw [hlist]; exact List.mem_singleton.mpr rfl)

/-! ## Claim C6 -/

/-- Claim C6 (amended): when the LLM response fails JSON parsing, the match
does not fail: match_job returns the documented fallback with match_score
50 and the raw response attached, and every match entry built from it by
find_matching_jobs carries the neutral llm_score 1/2; but no degraded flag
is set anywhere in the returned match result. -/
theorem match_job_malformed_fallback (json_loads : String → Option PyVal)
    (response : String) (h : json_loads response = none)
    (jobsDb : List Job) (similar_jobs : List (String × ℚ)) (e : MatchEntry)
    (he : e ∈ (find_matching_jobs jobsDb similar_jobs (fun _ => response)
      json_loads).jobs) :
    (match_job json_loads response).getOpt "match_score" = some (.num 50) ∧
    (match_job json_loads response).getOpt "raw_response" =
      some (.str response) ∧
    (match_job json_loads response).getOpt "degraded" = none ∧
    e.llm_score = 1 / 2 := by
  have hmj : match_job json_loads response =
      .dict [("match_score", .num 50),
             ("matching_points", .list [.str "Could not parse matching points"]),
             ("missing_points", .list [.str "Could not parse missing points"]),
             ("recommendations", .list [.str "Could not parse recommendations"]),
             ("summary", .str "Could not generate a proper match analysis"),
             ("raw_response", .str response)] := by
    rw [match_job, h]
  refine ⟨by rw [hmj]; rfl, by rw [hmj]; rfl, by rw [hmj]; rfl, ?_⟩
  have hmem : e ∈ similar_jobs.filterMap
      (find_matching_jobs_entry jobsDb (fun _ => response) json_loads) := by
    simpa [find_matching_jobs, mem_sortDescBy] using he
  rcases List.mem_filterMap.1 hmem with ⟨jm, _, hsome⟩
  cases hfind : findJob jobsDb jm.1 with
  | none => rw [find_matching_jobs_entry, hfind] at hsome; cases hsome
  | some job =>
      rw [find_matching_jobs_entry, hfind] at hsome
      simp only [] at hsome
      simp only [Option.some.injEq] at hsome
      subst hsome
      show ((match_job json_loads response).get "match_score" (.num 50)).asNum 0
          / 100 = 1 / 2
      rw [hmj]
      norm_num [PyVal.get, PyVal.asNum, List.lookup]

/-- Counterexample to claim C6 as stated: at a malformed LLM response the
returned match result is the documented fallback, which carries no
degraded key at all, so degraded = true is not flagged. -/
theorem match_job_no_degraded_flag :
    match_job (fun _ => none) "not json" =
      .dict [("match_score", .num 50),
             ("matching_points", .list [.str "Could not parse matching points"]),
             ("missing_points", .list [.str "Could not parse missing points"]),
             ("recommendations", .list [.str "Could not parse recommendations"]),
             ("summary", .str "Could not generate a proper match analysis"),
             ("raw_response", .str "not json")] ∧
    (match_job (fun _ => none) "not json").getOpt "degraded" = none :=
  ⟨rfl, rfl⟩

/-- Witness for match_job_malformed_fallback at a concrete run. -/
theorem match_job_malformed_fallback_witness :
    (match_job (fun _ => none) "oops").getOpt "match_score" =
      some (.num 50) ∧
    (match_job (fun _ => none) "oops").getOpt "raw_response" =
      some (.str "oops") ∧
    (match_job (fun _ => none) "oops").getOpt "degraded" = none ∧
    wC1Entry.llm_score = 1 / 2 :=
  match_job_malformed_fallback (fun _ => none) "oops" rfl [wC1Job]
    [("j1", 1/2)] wC1Entry
    (by show wC1Entry ∈ [wC1Entry]; exact List.mem_singleton.mpr rfl)

/-! ## Claim C9 -/

/-- Claim C9: when the LLM response to a cover-letter request fails JSON
parsing, generate_cover_letter does not raise: it returns the documented
structured fallback, whose full_text equals the raw LLM response
verbatim. -/
theorem generate_cover_letter_fallback_full_text
    (json_loads : String → Option PyVal) (response : String)
    (h : json_loads response = none) :
    generate_cover_letter json_loads response =
      .dict [("subject_line", .str "Application for [Job Title]"),
             ("salutation", .str "Dear Hiring Manager,"),
             ("introduction", .str "Could not generate introduction"),
             ("body", .str "Could not generate body"),
             ("closing", .str "Could not generate closing"),
             ("signature", .str "Sincerely,\n[Candidate Name]"),
             ("full_text", .str response)] ∧
    (generate_cover_letter json_loads response).getOpt "full_text" =
      some (.str response) := by
  have h2 : generate_cover_letter json_loads response =
      .dict [("subject_line", .str "Application for [Job Title]"),
             ("salutation", .str "Dear Hiring Manager,"),
             ("introduction", .str "Could not generate introduction"),
             ("body", .str "Could not generate body"),
             ("closing", .str "Could not generate closing"),
             ("signature", .str "Sincerely,\n[Candidate Name]"),
             ("full_text", .str response)] := by
    rw [generate_cover_letter, h]
  exact ⟨h2, by rw [h2]; rfl⟩

/-- Witness for generate_cover_letter_fallback_full_text at a concrete
run. -/
theorem generate_cover_letter_fallback_full_text_witness :
    (generate_cover_letter (fun _ => none) "plain text").getOpt "full_text" =
      some (.str "plain text") :=
  (generate_cover_letter_fallback_full_text (fun _ => none) "plain text"
    rfl).2

/-! ## Claim C3 -/

/-- Claim C3 (amended): a sync_profile delivery whose inner work always
raises a transient external error (network timeout, 5xx, rate limit)
terminates after exactly one attempt: the broad except inside the task
body catches the exception and returns a status error payload, so the task
ends in the Celery success state; it is never retried with backoff, never
loops, and is not silently dropped (the failure is reported in the
returned result). -/
theorem sync_profile_transient_error_one_attempt (user_id msg : String) :
    (runCeleryTask (sync_profile_body user_id (.raises msg))).attempts = 1 ∧
    (runCeleryTask (sync_profile_body user_id (.raises msg))).finalState =
      .success ∧
    (runCeleryTask (sync_profile_body user_id (.raises msg))).result =
      some (.dict [("status", .str "error"), ("user_id", .str user_id),
                   ("message",
                    .str ("Error syncing LinkedIn profile: " ++ msg))]) :=
  ⟨rfl, rfl, rfl⟩

/-- Counterexample to claim C3 as stated: with a handler whose inner work
raises a transient external error on every attempt, the task makes exactly
one attempt and does not end in the failed state (it ends in the success
state with an error payload), so it is not retried with exponential
backoff up to a configured max-attempt count. -/
theorem sync_profile_transient_error_not_failed :
    (runCeleryTask (sync_profile_body "u1"
        (.raises "TransientExternalError"))).finalState ≠ .failure ∧
    (runCeleryTask (sync_profile_body "u1"
        (.raises "TransientExternalError"))).attempts = 1 :=
  ⟨fun h => CeleryState.noConfusion h, rfl⟩

/-! ## Claim C4 -/

/-- Transcription of the refresh direction of claim C4, in the words of
the spec: with skew window s, a get_token call for a user holding a token,
an expiry and a refresh token calls the refresh endpoint whenever now is
not before expires_at - s.  Stated only to be refuted. -/
def refreshesWithSkew (s : ℚ) : Prop :=
  ∀ (user : UserRec) (now : ℚ) (tok rt : String) (exp : ℚ) (td : PyVal),
    user.linkedin_access_token = some tok →
    user.linkedin_refresh_token = some rt →
    user.linkedin_token_expires_at = some exp →
    ¬ (now < exp - s) →
    1 ≤ (ensure_valid_token user now (some td)).refreshCalls

/-- Counterexample to claim C4 as stated: no positive skew window is
consistent with _ensure_valid_token, which refreshes only after hard
expiry: for any positive s, a call with now strictly between
expires_at - s and expires_at returns the cached token and makes no
refresh call, where the claim requires a proactive refresh. -/
theorem no_positive_skew_window : ¬ ∃ s : ℚ, 0 < s ∧ refreshesWithSkew s := by
  rintro ⟨s, hs, h⟩
  have h2 := h ⟨some "t", some "r", some s⟩ (s / 2) "t" "r" s (.dict [])
    rfl rfl rfl (by push_neg; linarith)
  have h3 : ensure_valid_token ⟨some "t", some "r", some s⟩ (s / 2)
      (some (.dict [])) = ⟨some "t", ⟨some "t", some "r", some s⟩, 0⟩ := by
    rw [ensure_valid_token.eq_def]
    simp only []
    rw [if_neg (by linarith : ¬ s < s / 2)]
  rw [h3] at h2
  exact absurd h2 (by norm_num)

/-- Claim C4 (amended): the skew window in the source is zero:
_ensure_valid_token returns the cached access token without calling the
refresh endpoint whenever the stored expiry is absent or now has not yet
passed it (so there is no proactive refresh before hard expiry), and only
once now is strictly past expires_at does it call the refresh endpoint,
persist the response token and expiry on the user row, and return the new
token. -/
theorem ensure_valid_token_zero_skew (ue : Option ℚ) (ur : Option String)
    (now : ℚ) (tok : String) (ro : Option PyVal) :
    ((∀ exp, ue = some exp → now ≤ exp) →
      ensure_valid_token ⟨some tok, ur, ue⟩ now ro =
        ⟨some tok, ⟨some tok, ur, ue⟩, 0⟩) ∧
    (∀ exp rt td, ue = some exp → exp < now → ur = some rt →
      ro = some td →
      ensure_valid_token ⟨some tok, ur, ue⟩ now ro =
        ⟨pyOptStr (td.getOpt "access_token"),
         ⟨pyOptStr (td.getOpt "access_token"),
          pyOptStr (td.getOpt "refresh_token"),
          pyOptNum (td.getOpt "expires_at")⟩, 1⟩) := by
  constructor
  · intro hvalid
    cases ue with
    | none => rfl
    | some exp =>
        rw [ensure_valid_token.eq_def]
        simp only []
        rw [if_neg (not_lt.2 (hvalid exp rfl))]
  · rintro exp rt td rfl hlt rfl rfl
    rw [ensure_valid_token.eq_def]
    simp only []
    rw [if_pos hlt]

/-- The refresh endpoint response used in the C4 and C5 witness runs. -/
def wTokenData : PyVal :=
  .dict [("access_token", .str "new"), ("refresh_token", .str "r2"),
         ("expires_at", .num 1000)]

/-- Witness for ensure_valid_token_zero_skew at concrete runs: a call one
moment before expiry returns the cached token with no refresh call, and a
call after expiry refreshes, persists and returns the new token. -/
theorem ensure_valid_token_zero_skew_witness :
    ensure_valid_token ⟨some "t", some "r", some 100⟩ 50 (some wTokenData) =
      ⟨some "t", ⟨some "t", some "r", some 100⟩, 0⟩ ∧
    ensure_valid_token ⟨some "t", some "r", some 100⟩ 200 (some wTokenData) =
      ⟨some "new", ⟨some "new", some "r2", some 1000⟩, 1⟩ := by
  constructor
  · exact (ensure_valid_token_zero_skew (some 100) (some "r") 50 "t"
      (some wTokenData)).1
      (fun exp h => by
        obtain rfl : (100 : ℚ) = exp := Option.some.inj h
        norm_num)
  · exact (ensure_valid_token_zero_skew (some 100) (some "r") 200 "t"
      (some wTokenData)).2 100 "r" wTokenData rfl (by norm_num) rfl rfl

/-! ## Claim C5 -/

/-- Failing input for claim C5: with an expired token, both in-flight
_ensure_valid_token calls pass the expiry check on the shared user row
before either refreshes (schedule 0, 1, 0, 1), so each then calls the
refresh endpoint: two network refresh calls for the same user, where the
claim requires exactly one; the source has no per-user lock to prevent
this. -/
theorem concurrent_refresh_two_calls :
    (runRefreshSchedule 100 wTokenData
      ⟨⟨some "old", some "r", some 0⟩, 0,
       [⟨.checkExpiry, none⟩, ⟨.checkExpiry, none⟩]⟩
      [0, 1, 0, 1]).refreshCalls = 2 ∧
    (runRefreshSchedule 100 wTokenData
      ⟨⟨some "old", some "r", some 0⟩, 0,
       [⟨.checkExpiry, none⟩, ⟨.checkExpiry, none⟩]⟩
      [0, 1, 0, 1]).threads.all (fun t => t.pc == .finished) = true := by
  constructor <;>
    simp [runRefreshSchedule, refreshWorldStep, wTokenData, pyOptStr,
      pyOptNum, PyVal.getOpt, List.lookup,
      (by norm_num : ((0 : ℚ) < 100) = True)]

/-! ## Claim C8 -/

/-- The job row of the C8 failing input. -/
def wC8Job : Job := ⟨"x1", "JT", "JC", "JL", "JD"⟩

/-- The profile row of the C8 failing input, sharing the id of wC8Job. -/
def wC8Profile : Profile := ⟨"x1", "Jane Doe", "Engineer"⟩

/-- Failing input for claim C8: the in-memory provider keeps one shared
dict for both namespaces, so index_profile under an id that is also a job
id overwrites the job entry: the jobs-namespace view (the vectors a jobs
query ranges over) holds the job vector before the profile upsert and
loses it afterwards, where the claim requires the jobs namespace
unchanged. -/
theorem index_profile_overwrites_job_vector :
    jobsNamespace (index_job emptyStore wC8Job [1, 0]) = [("x1", [1, 0])] ∧
    jobsNamespace (index_profile (index_job emptyStore wC8Job [1, 0])
      wC8Profile [0, 1]) = [] :=
  ⟨rfl, rfl⟩

/-! ## Claim C10 -/

/-- Python-level identity: d.get(k, default) agrees with d.get(k) with the
default filled in. -/
theorem PyVal.get_eq_getOpt (v : PyVal) (k : String) (d : PyVal) :
    v.get k d = (v.getOpt k).getD d := by
  cases v <;> rfl

/-- Claim C10: when the refresh response lacks the refresh_token key, the
service path _ensure_valid_token commits None as the stored refresh token
(losing it), while the worker path sync_profile keeps the previously
stored one; the two code paths leave the user row in different states. -/
theorem refresh_token_paths_diverge (now exp : ℚ) (tok rt : String)
    (td : PyVal) (hlt : exp < now)
    (hmissing : td.getOpt "refresh_token" = none) :
    (ensure_valid_token ⟨some tok, some rt, some exp⟩ now
        (some td)).user.linkedin_refresh_token = none ∧
    (sync_profile_token_update ⟨some tok, some rt, some exp⟩
        td).linkedin_refresh_token = some rt ∧
    (ensure_valid_token ⟨some tok, some rt, some exp⟩ now
        (some td)).user.linkedin_refresh_token ≠
      (sync_profile_token_update ⟨some tok, some rt, some exp⟩
        td).linkedin_refresh_token := by
  have h1 : (ensure_valid_token ⟨some tok, some rt, some exp⟩ now
      (some td)).user.linkedin_refresh_token = none := by
    rw [ensure_valid_token.eq_def]
    simp only []
    rw [if_pos hlt]
    simp only []
    rw [hmissing]
    rfl
  have h2 : (sync_profile_token_update ⟨some tok, some rt, some exp⟩
      td).linkedin_refresh_token = some rt := by
    rw [sync_profile_token_update]
    simp only [PyVal.get_eq_getOpt]
    rw [hmissing]
    rfl
  exact ⟨h1, h2, by rw [h1, h2]; exact fun h => Option.noConfusion h⟩

/-- Witness for refresh_token_paths_diverge at a concrete run: the refresh
response carries only a new access token and expiry. -/
theorem refresh_token_paths_diverge_witness :
    (ensure_valid_token ⟨some "t", some "r", some 0⟩ 100
        (some (.dict [("access_token", .str "new"),
                      ("expires_at", .num 1000)]))).user.linkedin_refresh_token
      = none ∧
    (sync_profile_token_update ⟨some "t", some "r", some 0⟩
        (.dict [("access_token", .str "new"),
                ("expires_at", .num 1000)])).linkedin_refresh_token =
      some "r" :=
  ⟨(refresh_token_paths_diverge 100 0 "t" "r"
      (.dict [("access_token", .str "new"), ("expires_at", .num 1000)])
      (by norm_num) rfl).1,
   (refresh_token_paths_diverge 100 0 "t" "r"
      (.dict [("access_token", .str "new"), ("expires_at", .num 1000)])
      (by norm_num) rfl).2.1⟩
